import Mathlib

/-!
Verification of the job-preparation and result-resolution pipeline of a
Streamlit web UI for the Boltz-1 structure-prediction engine (`webui.py`).

The Python functions are shallowly embedded as executable Lean definitions:
strings are Lean `String`s, Python `set` becomes `Finset Char`, the
filesystem/subprocess effects of `main` become an explicit effect trace,
and `hashlib.md5` is implemented bit-for-bit (RFC 1321) over `Nat` with
explicit reduction modulo 2^32.
-/

namespace Webui

/-- ASCII fragment of the whitespace class used by Python `str.strip()`:
space, tab, linefeed, vertical tab, form feed, carriage return. -/
def isPySpace (c : Char) : Bool :=
  c = ' ' || c = '\t' || c = '\n' || c = '\x0b' || c = '\x0c' || c = '\r'

/-- Python `str.strip()` on a list of characters: drop the whitespace
prefix and suffix. -/
def pyStrip (l : List Char) : List Char :=
  ((l.dropWhile isPySpace).reverse.dropWhile isPySpace).reverse

/-- Python `str.replace(' ', '')`: remove every space character. -/
def removeSpaces (l : List Char) : List Char :=
  l.filter (fun c => c ≠ ' ')

/-- ASCII fragment of Python `str.upper()` on one character. -/
def upperChar (c : Char) : Char :=
  if 'a' ≤ c ∧ c ≤ 'z' then Char.ofNat (c.toNat - 32) else c

/-- `seq.strip().replace(' ', '').upper()` — the normalization performed at
the top of `validate_seq` (webui.py line 61). -/
def normalize (s : String) : String :=
  String.mk ((removeSpaces (pyStrip s.toList)).map upperChar)

/-- The Python set literal `{"A", "U", "C", "G"}` (webui.py line 62). -/
def rnaBases : Finset Char := {'A', 'U', 'C', 'G'}

/-- The Python set literal `{"A", "T", "C", "G"}` (webui.py line 65). -/
def dnaBases : Finset Char := {'A', 'T', 'C', 'G'}

/-- The Python set literal `{"B", "J", "O", "U", "X", "Z"}` of rejected
amino-acid codes (webui.py line 68). -/
def badAminoAcids : Finset Char := {'B', 'J', 'O', 'U', 'X', 'Z'}

/-- Python `set(seq)` for a normalized sequence. -/
def charSet (s : String) : Finset Char := s.toList.toFinset

/-- `validate_seq(seq, seq_type)` (webui.py lines 49-72): normalize, then
three guarded early returns of `False`, else `True`.  The `st.error` calls
only emit UI messages and do not affect the returned value. -/
def validate_seq (seq : String) (seq_type : String) : Bool :=
  let s := normalize seq
  if seq_type = "rna" ∧ charSet s ≠ rnaBases then false
  else if seq_type = "dna" ∧ charSet s ≠ dnaBases then false
  else if seq_type = "protein" ∧ (badAminoAcids ∩ charSet s).Nonempty then false
  else true

/-! ### MD5 (RFC 1321), the digest used by `hashlib.md5(...).hexdigest()` -/

/-- Reduce modulo 2^32 (32-bit machine word). -/
def w32 (n : Nat) : Nat := n % 4294967296

/-- 32-bit modular addition. -/
def add32 (a b : Nat) : Nat := w32 (a + b)

/-- 32-bit left rotation by `s` bits. -/
def rotl32 (x s : Nat) : Nat := w32 (x <<< s) ||| (x >>> (32 - s))

/-- 32-bit bitwise complement. -/
def not32 (x : Nat) : Nat := x ^^^ 4294967295

/-- The 64 MD5 sine-derived constants `K[i] = floor(2^32 * |sin(i+1)|)`. -/
def md5K : List Nat :=
  [0xd76aa478, 0xe8c7b756, 0x242070db, 0xc1bdceee,
   0xf57c0faf, 0x4787c62a, 0xa8304613, 0xfd469501,
   0x698098d8, 0x8b44f7af, 0xffff5bb1, 0x895cd7be,
   0x6b901122, 0xfd987193, 0xa679438e, 0x49b40821,
   0xf61e2562, 0xc040b340, 0x265e5a51, 0xe9b6c7aa,
   0xd62f105d, 0x02441453, 0xd8a1e681, 0xe7d3fbc8,
   0x21e1cde6, 0xc33707d6, 0xf4d50d87, 0x455a14ed,
   0xa9e3e905, 0xfcefa3f8, 0x676f02d9, 0x8d2a4c8a,
   0xfffa3942, 0x8771f681, 0x6d9d6122, 0xfde5380c,
   0xa4beea44, 0x4bdecfa9, 0xf6bb4b60, 0xbebfbc70,
   0x289b7ec6, 0xeaa127fa, 0xd4ef3085, 0x04881d05,
   0xd9d4d039, 0xe6db99e5, 0x1fa27cf8, 0xc4ac5665,
   0xf4292244, 0x432aff97, 0xab9423a7, 0xfc93a039,
   0x655b59c3, 0x8f0ccc92, 0xffeff47d, 0x85845dd1,
   0x6fa87e4f, 0xfe2ce6e0, 0xa3014314, 0x4e0811a1,
   0xf7537e82, 0xbd3af235, 0x2ad7d2bb, 0xeb86d391]

/-- The 64 MD5 per-round left-rotation amounts. -/
def md5S : List Nat :=
  [7, 12, 17, 22, 7, 12, 17, 22, 7, 12, 17, 22, 7, 12, 17, 22,
   5, 9, 14, 20, 5, 9, 14, 20, 5, 9, 14, 20, 5, 9, 14, 20,
   4, 11, 16, 23, 4, 11, 16, 23, 4, 11, 16, 23, 4, 11, 16, 23,
   6, 10, 15, 21, 6, 10, 15, 21, 6, 10, 15, 21, 6, 10, 15, 21]

/-- The four 32-bit words of the running MD5 state. -/
structure MD5State where
  a : Nat
  b : Nat
  c : Nat
  d : Nat
deriving DecidableEq

/-- One of the 64 MD5 rounds, `M` being the 16 words of the current chunk. -/
def md5Round (M : List Nat) (st : MD5State) (i : Nat) : MD5State :=
  let b := st.b
  let c := st.c
  let d := st.d
  let fg : Nat × Nat :=
    if i < 16 then ((b &&& c) ||| (not32 b &&& d), i)
    else if i < 32 then ((d &&& b) ||| (not32 d &&& c), (5 * i + 1) % 16)
    else if i < 48 then (b ^^^ c ^^^ d, (3 * i + 5) % 16)
    else (c ^^^ (b ||| not32 d), (7 * i) % 16)
  let f := w32 (fg.1 + st.a + md5K.getD i 0 + M.getD fg.2 0)
  ⟨d, add32 b (rotl32 f (md5S.getD i 0)), b, c⟩

/-- A 32-bit word from four little-endian bytes. -/
def leWord (b0 b1 b2 b3 : Nat) : Nat := b0 + 256 * b1 + 65536 * b2 + 16777216 * b3

/-- Decode a 64-byte chunk into its 16 little-endian 32-bit words. -/
def chunkWords : List Nat → List Nat
  | b0 :: b1 :: b2 :: b3 :: rest => leWord b0 b1 b2 b3 :: chunkWords rest
  | _ => []

/-- Process one 64-byte chunk: 64 rounds, then add into the state. -/
def md5Chunk (st : MD5State) (chunk : List Nat) : MD5State :=
  let M := chunkWords chunk
  let r := (List.range 64).foldl (md5Round M) st
  ⟨add32 st.a r.a, add32 st.b r.b, add32 st.c r.c, add32 st.d r.d⟩

/-- The eight little-endian bytes of a 64-bit length value. -/
def leBytes8 (n : Nat) : List Nat :=
  [n % 256, n / 256 % 256, n / 65536 % 256, n / 16777216 % 256,
   n / 4294967296 % 256, n / 1099511627776 % 256,
   n / 281474976710656 % 256, n / 72057594037927936 % 256]

/-- MD5 padding: a `0x80` byte, zeros to 56 mod 64, then the bit length. -/
def md5Pad (msg : List Nat) : List Nat :=
  let len := msg.length
  let zeros := (56 + 64 - (len + 1) % 64) % 64
  msg ++ [128] ++ List.replicate zeros 0 ++ leBytes8 (8 * len)

/-- Split a byte list into 64-byte chunks (fuelled for structural termination). -/
def chunks64Aux : Nat → List Nat → List (List Nat)
  | 0, _ => []
  | _, [] => []
  | fuel + 1, l@(_ :: _) => l.take 64 :: chunks64Aux fuel (l.drop 64)

/-- Split a byte list into 64-byte chunks. -/
def chunks64 (l : List Nat) : List (List Nat) := chunks64Aux l.length l

/-- The MD5 initial state words A, B, C, D. -/
def md5Init : MD5State := ⟨0x67452301, 0xefcdab89, 0x98badcfe, 0x10325476⟩

/-- Lowercase hexadecimal digit for a value below 16. -/
def hexDigit (n : Nat) : Char :=
  if n < 10 then Char.ofNat (48 + n) else Char.ofNat (87 + n)

/-- Two lowercase hex digits of one byte. -/
def byteHex (b : Nat) : List Char := [hexDigit (b / 16), hexDigit (b % 16)]

/-- The four little-endian bytes of a 32-bit word. -/
def leBytes4 (n : Nat) : List Nat :=
  [n % 256, n / 256 % 256, n / 65536 % 256, n / 16777216 % 256]

/-- `hashlib.md5(bytes).hexdigest()`: the 32-character lowercase hex MD5
digest of a byte list. -/
def md5hex (msg : List Nat) : String :=
  let st := (chunks64 (md5Pad msg)).foldl md5Chunk md5Init
  String.mk
    (((leBytes4 st.a ++ leBytes4 st.b ++ leBytes4 st.c ++ leBytes4 st.d).map byteHex).flatten)

/-- UTF-8 encoding of one character (`str.encode('utf-8')`, per character). -/
def utf8Char (c : Char) : List Nat :=
  let n := c.toNat
  if n < 128 then [n]
  else if n < 2048 then [192 + n / 64, 128 + n % 64]
  else if n < 65536 then [224 + n / 4096, 128 + n / 64 % 64, 128 + n % 64]
  else [240 + n / 262144, 128 + n / 4096 % 64, 128 + n / 64 % 64, 128 + n % 64]

/-- `seq.encode('utf-8')`: the UTF-8 bytes of a string. -/
def utf8Encode (s : String) : List Nat :=
  s.toList.foldr (fun c acc => utf8Char c ++ acc) []

/-! ### `make_fasta` (webui.py lines 74-94) -/

/-- The observable effect of a successful `make_fasta` call: the returned
`fname`, the path opened for writing, and the text written to it. -/
structure FastaFile where
  fname : String
  path : String
  content : String
deriving DecidableEq

/-- `make_fasta(seq, seq_type)` (webui.py lines 74-94): on successful
validation, names the file by `hashlib.md5(seq.encode('utf-8')).hexdigest()`
of the argument `seq` exactly as passed (the normalization inside
`validate_seq` rebinds only its local variable), writes
`>A|{seq_type}\n{seq}` to `temp/{fname}.fasta` and returns `fname`;
otherwise falls through to the bare `return` (None). -/
def make_fasta (seq : String) (seq_type : String) : Option FastaFile :=
  if validate_seq seq seq_type then
    let fname := md5hex (utf8Encode seq)
    some ⟨fname, "temp/" ++ fname ++ ".fasta", ">A|" ++ seq_type ++ "\n" ++ seq⟩
  else none

/-! ### `get_accelerator` (webui.py lines 31-47) -/

/-- The host capabilities probed by `get_accelerator`:
`torch.cuda.is_available()` and `torch.backends.mps.is_available()`. -/
structure Host where
  cudaAvailable : Bool
  mpsAvailable : Bool
deriving DecidableEq

/-- The returned device token together with whether the call set the
process-wide `PYTORCH_ENABLE_MPS_FALLBACK` environment variable to `'1'`. -/
structure AccelResult where
  device : String
  mpsFallbackSet : Bool
deriving DecidableEq

/-- `get_accelerator()` (webui.py lines 31-47): `"cuda"` when CUDA is
available, else `"gpu"` (setting the MPS-fallback environment toggle) when
MPS is available, else `"cpu"`. -/
def get_accelerator (h : Host) : AccelResult :=
  if h.cudaAvailable then ⟨"cuda", false⟩
  else if h.mpsAvailable then ⟨"gpu", true⟩
  else ⟨"cpu", false⟩

/-! ### Result locations and the engine command line (webui.py `main`) -/

/-- The pdb result path f-string (webui.py line 163). -/
def pdbLocation (fname : String) : String :=
  "./temp/boltz_results_" ++ fname ++ "/predictions/" ++ fname ++ "/" ++ fname ++ "_model_0.pdb"

/-- The mmcif result path f-string (webui.py line 201). -/
def mmcifLocation (fname : String) : String :=
  "./temp/boltz_results_" ++ fname ++ "/predictions/" ++ fname ++ "/" ++ fname ++ "_model_0.mmcif"

/-- The output location `main` resolves for a job identifier and requested
output format; formats other than the two radio choices resolve nothing
(webui.py lines 162-163 and 199-201). -/
def resultLocation (fname : String) : String → Option String
  | "pdb" => some (pdbLocation fname)
  | "mmcif" => some (mmcifLocation fname)
  | _ => none

/-- The shared directory prefix of both result paths, up to the extension. -/
def locationStem (fname : String) : String :=
  "./temp/boltz_results_" ++ fname ++ "/predictions/" ++ fname ++ "/" ++ fname ++ "_model_0"

/-- The argument list handed to `subprocess.run` (webui.py lines 138-156). -/
def boltzCommand (fname accelerator : String) (sampling_steps diffusion_samples : Nat)
    (output_format : String) (num_workers seed : Nat) : List String :=
  ["boltz",
   "predict",
   "./temp/" ++ fname ++ ".fasta",
   "--out_dir",
   "./temp",
   "--accelerator",
   accelerator,
   "--sampling_steps",
   toString sampling_steps,
   "--diffusion_samples",
   toString diffusion_samples,
   "--output_format",
   output_format,
   "--num_workers",
   toString num_workers,
   "--seed",
   toString seed,
   "--use_msa_server"]

/-! ### The generation workflow (webui.py lines 129-211)

The button handler is embedded as a pure function of the submitted inputs
and an environment describing what the outside world does: whether
`subprocess.run` launches (an exception message on launch failure, the
process exit status otherwise — `subprocess.run` is called without
`check`, so a mere non-zero exit raises nothing), and what
`Path(...).read_text()` yields at each path (an exception message when the
file is unreadable).  The function returns a trace of the observable
effects: `st.error` messages, `st.write` messages, files written, and
launch attempts with their argument lists. -/

/-- External behaviour: process launch outcome and filesystem reads. -/
structure Env where
  launch : Except String Int
  readFile : String → Except String String

/-- Observable effects of one press of the Generate button. -/
structure Trace where
  errors : List String
  infos : List String
  filesWritten : List (String × String)
  launches : List (List String)
deriving DecidableEq

/-- Python `str.upper()` applied to the whole text-input value
(webui.py line 112), ASCII fragment. -/
def pyUpper (s : String) : String := String.mk (s.toList.map upperChar)

/-- The Generate-button workflow (webui.py lines 129-211): reject an empty
sequence; build the FASTA (which halts silently on validation failure, the
validator having already reported inline); attempt the engine launch; on
any exception — launch failure or an unreadable result file — fall into the
`except` handler and surface one generic error message.  A non-zero exit
status raises nothing and is never inspected. -/
def mainGenerate (host : Host) (env : Env) (input : String)
    (seq_type output_format : String)
    (sampling_steps diffusion_samples num_workers seed : Nat) : Trace :=
  let seq := pyUpper input
  if seq = "" then
    { errors := ["Please enter a sequence."], infos := [], filesWritten := [], launches := [] }
  else
    match make_fasta seq seq_type with
    | none =>
      { errors := [], infos := [], filesWritten := [], launches := [] }
    | some fasta =>
      let cmd := boltzCommand fasta.fname (get_accelerator host).device
        sampling_steps diffusion_samples output_format num_workers seed
      let base : Trace :=
        { errors := []
          infos := ["Created temporary fasta: " ++ fasta.fname]
          filesWritten := [(fasta.path, fasta.content)]
          launches := [cmd] }
      match env.launch with
      | .error e => { base with errors := ["An unexpected error occurred: " ++ e] }
      | .ok _exitStatus =>
        let base := { base with infos := base.infos ++ ["Structure generated."] }
        if output_format = "pdb" then
          match env.readFile (pdbLocation fasta.fname) with
          | .error e => { base with errors := ["An unexpected error occurred: " ++ e] }
          | .ok _pdb_data => base
        else if output_format = "mmcif" then
          match env.readFile (mmcifLocation fasta.fname) with
          | .error e => { base with errors := ["An unexpected error occurred: " ++ e] }
          | .ok _cif_data => base
        else base

/-- The normalization as the verified claim words it — leading/trailing
whitespace trimmed, ALL internal whitespace characters removed, letters
uppercased — stated only for comparison against the source's `normalize`,
which removes just the space character internally. -/
def normalizeClaimed (s : String) : String :=
  String.mk (((pyStrip s.toList).filter (fun c => ¬ isPySpace c)).map upperChar)

/-! ### Helper lemmas about the workflow trace -/

/-- An empty (post-uppercasing) sequence short-circuits the whole handler. -/
theorem mainGenerate_empty (host : Host) (env : Env) (input seq_type output_format : String)
    (ss ds nw sd : Nat) (he : pyUpper input = "") :
    mainGenerate host env input seq_type output_format ss ds nw sd =
      ⟨["Please enter a sequence."], [], [], []⟩ := by
  unfold mainGenerate
  simp [he]

/-- A validation failure yields an empty effect trace from the handler. -/
theorem mainGenerate_invalid (host : Host) (env : Env) (input seq_type output_format : String)
    (ss ds nw sd : Nat) (he : ¬ pyUpper input = "")
    (hm : make_fasta (pyUpper input) seq_type = none) :
    mainGenerate host env input seq_type output_format ss ds nw sd = ⟨[], [], [], []⟩ := by
  unfold mainGenerate
  simp [he, hm]

/-- After a successful build, every branch of the handler records exactly
the written FASTA file and one launch of the assembled command. -/
theorem mainGenerate_launched (host : Host) (env : Env) (input seq_type output_format : String)
    (ss ds nw sd : Nat) (fasta : FastaFile) (he : ¬ pyUpper input = "")
    (hm : make_fasta (pyUpper input) seq_type = some fasta) :
    (mainGenerate host env input seq_type output_format ss ds nw sd).launches =
      [boltzCommand fasta.fname (get_accelerator host).device ss ds output_format nw sd] ∧
    (mainGenerate host env input seq_type output_format ss ds nw sd).filesWritten =
      [(fasta.path, fasta.content)] := by
  unfold mainGenerate
  simp [he, hm]
  rcases env.launch with e | code
  · simp
  · simp
    by_cases hp : output_format = "pdb"
    · simp [hp]
      rcases env.readFile (pdbLocation fasta.fname) with e | d <;> simp
    · simp [hp]
      by_cases hc : output_format = "mmcif"
      · simp [hc]
        rcases env.readFile (mmcifLocation fasta.fname) with e | d <;> simp
      · simp [hc]

/-- A launch failure lands in the `except` handler with one error message. -/
theorem mainGenerate_launch_error (host : Host) (env : Env) (input seq_type output_format : String)
    (ss ds nw sd : Nat) (fasta : FastaFile) (msg : String) (he : ¬ pyUpper input = "")
    (hm : make_fasta (pyUpper input) seq_type = some fasta)
    (hl : env.launch = .error msg) :
    (mainGenerate host env input seq_type output_format ss ds nw sd).errors =
      ["An unexpected error occurred: " ++ msg] := by
  unfold mainGenerate
  simp [he, hm, hl]

/-! ### Claim theorems -/

/-- C1: `validate_seq` accepts an rna sequence iff the character set of its
normalization is exactly {A,U,C,G}, and a dna sequence iff it is exactly
{A,T,C,G}; strict subsets such as "AAUU" (rna) and "AT" (dna) are rejected,
as is any extra character such as in "AUCGN". -/
theorem c1_nucleotide_exact_alphabet :
    (∀ s : String,
      (validate_seq s "rna" = true ↔ charSet (normalize s) = rnaBases) ∧
      (validate_seq s "dna" = true ↔ charSet (normalize s) = dnaBases)) ∧
    validate_seq "AAUU" "rna" = false ∧
    validate_seq "AT" "dna" = false ∧
    validate_seq "AUCGN" "rna" = false := by
  refine ⟨fun s => ⟨?_, ?_⟩, by decide, by decide, by decide⟩
  · unfold validate_seq
    by_cases h : charSet (normalize s) = rnaBases <;> simp [h]
  · unfold validate_seq
    by_cases h : charSet (normalize s) = dnaBases <;> simp [h]

/-- C4: `validate_seq` rejects a protein sequence iff its normalization
contains a character of {B,J,O,U,X,Z}; nothing else is required — "MSAD"
passes without the full 20-letter alphabet, the empty string passes, and
"MSADX" fails. -/
theorem c4_protein_ambiguity_codes :
    (∀ s : String,
      (validate_seq s "protein" = false ↔
        ∃ c, c ∈ (normalize s).toList ∧ c ∈ badAminoAcids)) ∧
    validate_seq "" "protein" = true ∧
    validate_seq "MSAD" "protein" = true ∧
    validate_seq "MSADX" "protein" = false := by
  refine ⟨fun s => ?_, by decide, by decide, by decide⟩
  unfold validate_seq
  by_cases h : (badAminoAcids ∩ charSet (normalize s)).Nonempty <;>
    simp [h, Finset.Nonempty, Finset.mem_inter, charSet, List.mem_toFinset] at * <;> tauto

/-- C10: for a declared type outside {protein, dna, rna} no alphabet check
fires, so `validate_seq` accepts every sequence. -/
theorem c10_unknown_type_accepts_all (s t : String)
    (h1 : t ≠ "protein") (h2 : t ≠ "dna") (h3 : t ≠ "rna") :
    validate_seq s t = true := by
  unfold validate_seq
  simp [h1, h2, h3]

theorem c10_unknown_type_accepts_all_witness :
    ("ligand" : String) ≠ "protein" ∧ ("ligand" : String) ≠ "dna" ∧
    ("ligand" : String) ≠ "rna" ∧ validate_seq "123!@#zz" "ligand" = true :=
  ⟨by decide, by decide, by decide,
   c10_unknown_type_accepts_all "123!@#zz" "ligand" (by decide) (by decide) (by decide)⟩

/-- C8: `get_accelerator` always returns one of the three tokens
{cpu, gpu, cuda}, prefers cuda over gpu over cpu, and sets the MPS-fallback
environment toggle exactly when it returns "gpu". -/
theorem c8_accelerator_selector :
    (∀ h : Host,
      (get_accelerator h).device ∈ (["cpu", "gpu", "cuda"] : List String) ∧
      ((get_accelerator h).mpsFallbackSet = true ↔ (get_accelerator h).device = "gpu")) ∧
    get_accelerator ⟨true, true⟩ = ⟨"cuda", false⟩ ∧
    get_accelerator ⟨true, false⟩ = ⟨"cuda", false⟩ ∧
    get_accelerator ⟨false, true⟩ = ⟨"gpu", true⟩ ∧
    get_accelerator ⟨false, false⟩ = ⟨"cpu", false⟩ := by
  refine ⟨fun h => ?_, by decide, by decide, by decide, by decide⟩
  obtain ⟨c, m⟩ := h
  cases c <;> cases m <;> decide

/-- C3 counterexample: the resolved mmcif output path ends in
`_model_0.mmcif`, not `_model_0.cif` as the claim states. -/
theorem c3_counterexample :
    resultLocation "abc123" "mmcif" =
      some "./temp/boltz_results_abc123/predictions/abc123/abc123_model_0.mmcif" ∧
    resultLocation "abc123" "mmcif" ≠ some (locationStem "abc123" ++ ".cif") := by
  exact ⟨rfl, by decide⟩

/-- C3 amended: the resolved output path is
`./temp/boltz_results_<id>/predictions/<id>/<id>_model_0.<ext>` with ext
`pdb` for pdb and `mmcif` (not `cif`) for mmcif; the two paths share the
directory prefix and stem and differ only in the final extension. -/
theorem c3_result_paths (id : String) :
    resultLocation id "pdb" = some (locationStem id ++ ".pdb") ∧
    resultLocation id "mmcif" = some (locationStem id ++ ".mmcif") := by
  constructor <;>
    simp [resultLocation, pdbLocation, mmcifLocation, locationStem, String.append_assoc]

/-- C9 counterexample: the source normalization removes only internal
space characters, not all internal whitespace — an internal tab survives
`strip().replace(' ', '').upper()`. -/
theorem c9_counterexample :
    normalize "A\tC" = "A\tC" ∧ normalizeClaimed "A\tC" = "AC" ∧
    normalize "A\tC" ≠ normalizeClaimed "A\tC" := by
  refine ⟨by decide, by decide, by decide⟩

/-- C9 amended: the normalized form equals the input trimmed of
leading/trailing whitespace, with internal *space* characters (U+0020)
removed and letters uppercased; validation depends on the input only
through this normalized form. -/
theorem c9_normalization (s : String) :
    normalize s = String.mk (((pyStrip s.toList).filter (fun c => c ≠ ' ')).map upperChar) ∧
    ∀ s₂ t, normalize s = normalize s₂ → validate_seq s t = validate_seq s₂ t := by
  refine ⟨rfl, fun s₂ t h => ?_⟩
  unfold validate_seq
  rw [h]

theorem c9_normalization_witness :
    normalize " au cg" = normalize "AUCG" ∧
    validate_seq " au cg" "rna" = validate_seq "AUCG" "rna" :=
  ⟨by decide, (c9_normalization " au cg").2 "AUCG" "rna" (by decide)⟩

set_option maxRecDepth 1000000 in
/-- C2 counterexample: two inputs with the same normalized form ("AUC G"
and "AUCG") both pass validation yet receive different job identifiers,
and the written file holds the raw sequence, not the normalized one —
`make_fasta` hashes and writes its `seq` argument as passed. -/
theorem c2_counterexample :
    normalize "AUC G" = normalize "AUCG" ∧
    validate_seq "AUC G" "rna" = true ∧
    validate_seq "AUCG" "rna" = true ∧
    (make_fasta "AUC G" "rna").map FastaFile.fname ≠
      (make_fasta "AUCG" "rna").map FastaFile.fname ∧
    (make_fasta "AUC G" "rna").map FastaFile.content = some (">A|rna" ++ "\n" ++ "AUC G") ∧
    (">A|rna" ++ "\n" ++ "AUC G" : String) ≠ ">A|rna" ++ "\n" ++ normalize "AUC G" := by
  refine ⟨by decide, by decide, by decide, by decide, by decide, by decide⟩

/-- C2 amended: when validation passes, `make_fasta` returns the md5 hex
digest of the UTF-8 bytes of the *raw* sequence argument as the job
identifier and writes `temp/<id>.fasta` containing the header `>A|<type>`
followed by that raw sequence; identical raw inputs therefore yield
identical identifiers, but inputs agreeing only after normalization need
not. -/
theorem c2_make_fasta (seq seq_type : String) (h : validate_seq seq seq_type = true) :
    make_fasta seq seq_type =
      some ⟨md5hex (utf8Encode seq),
            "temp/" ++ md5hex (utf8Encode seq) ++ ".fasta",
            ">A|" ++ seq_type ++ "\n" ++ seq⟩ := by
  simp [make_fasta, h]

theorem c2_make_fasta_witness :
    validate_seq "AUCG" "rna" = true ∧
    make_fasta "AUCG" "rna" =
      some ⟨md5hex (utf8Encode "AUCG"),
            "temp/" ++ md5hex (utf8Encode "AUCG") ++ ".fasta",
            ">A|" ++ "rna" ++ "\n" ++ "AUCG"⟩ :=
  ⟨by decide, c2_make_fasta "AUCG" "rna" (by decide)⟩

set_option maxRecDepth 1000000 in
/-- C5 counterexample: the engine exits with status 1 but — because
`subprocess.run` is called without a check of the return code — no
user-visible error is surfaced when a (stale) output file is readable:
the handler reports success. -/
theorem c5_counterexample :
    (mainGenerate ⟨false, false⟩ ⟨.ok 1, fun _ => .ok "stale model"⟩
        "AUCG" "rna" "pdb" 200 1 4 42).launches ≠ [] ∧
    (mainGenerate ⟨false, false⟩ ⟨.ok 1, fun _ => .ok "stale model"⟩
        "AUCG" "rna" "pdb" 200 1 4 42).errors = [] ∧
    (mainGenerate ⟨false, false⟩ ⟨.ok 1, fun _ => .ok "stale model"⟩
        "AUCG" "rna" "pdb" 200 1 4 42).infos =
      ["Created temporary fasta: " ++ md5hex (utf8Encode "AUCG"), "Structure generated."] := by
  refine ⟨by decide, by decide, by decide⟩

/-- C5 amended: a process-launch failure is caught and surfaced as exactly
one user-visible error message, and the engine is launched at most once
per submission (no retry); a non-zero exit status is not itself detected —
it surfaces only indirectly if reading the expected output file fails. -/
theorem c5_launch_failure_surfaced (host : Host) (env : Env)
    (input seq_type output_format : String) (ss ds nw sd : Nat) (msg : String)
    (hl : env.launch = .error msg) :
    (mainGenerate host env input seq_type output_format ss ds nw sd).launches.length ≤ 1 ∧
    ((mainGenerate host env input seq_type output_format ss ds nw sd).launches ≠ [] →
      (mainGenerate host env input seq_type output_format ss ds nw sd).errors =
        ["An unexpected error occurred: " ++ msg]) := by
  by_cases he : pyUpper input = ""
  · rw [mainGenerate_empty host env input seq_type output_format ss ds nw sd he]
    simp
  · cases hm : make_fasta (pyUpper input) seq_type with
    | none =>
      rw [mainGenerate_invalid host env input seq_type output_format ss ds nw sd he hm]
      simp
    | some fasta =>
      have hl' := mainGenerate_launched host env input seq_type output_format ss ds nw sd fasta he hm
      have herr := mainGenerate_launch_error host env input seq_type output_format ss ds nw sd fasta msg he hm hl
      rw [hl'.1]
      exact ⟨by simp, fun _ => herr⟩

theorem c5_launch_failure_surfaced_witness :
    (mainGenerate ⟨false, false⟩ ⟨.error "boltz binary not found", fun _ => .ok ""⟩
        "AUCG" "rna" "pdb" 200 1 4 42).launches.length ≤ 1 ∧
    ((mainGenerate ⟨false, false⟩ ⟨.error "boltz binary not found", fun _ => .ok ""⟩
        "AUCG" "rna" "pdb" 200 1 4 42).launches ≠ [] →
      (mainGenerate ⟨false, false⟩ ⟨.error "boltz binary not found", fun _ => .ok ""⟩
          "AUCG" "rna" "pdb" 200 1 4 42).errors =
        ["An unexpected error occurred: " ++ "boltz binary not found"]) :=
  c5_launch_failure_surfaced ⟨false, false⟩ ⟨.error "boltz binary not found", fun _ => .ok ""⟩
    "AUCG" "rna" "pdb" 200 1 4 42 "boltz binary not found" rfl

/-- C6: a submission whose sequence is empty or fails validation halts the
workflow with no file written and no engine launch; in the
validation-failure case `make_fasta` returns none. -/
theorem c6_halt_before_effects (host : Host) (env : Env)
    (input seq_type output_format : String) (ss ds nw sd : Nat)
    (h : input = "" ∨ validate_seq (pyUpper input) seq_type = false) :
    (mainGenerate host env input seq_type output_format ss ds nw sd).filesWritten = [] ∧
    (mainGenerate host env input seq_type output_format ss ds nw sd).launches = [] ∧
    (input = "" ∨ make_fasta (pyUpper input) seq_type = none) := by
  rcases h with h | h
  · subst h
    rw [mainGenerate_empty host env "" seq_type output_format ss ds nw sd rfl]
    exact ⟨rfl, rfl, Or.inl rfl⟩
  · have hm : make_fasta (pyUpper input) seq_type = none := by
      simp [make_fasta, h]
    by_cases he : pyUpper input = ""
    · rw [mainGenerate_empty host env input seq_type output_format ss ds nw sd he]
      exact ⟨rfl, rfl, Or.inr hm⟩
    · rw [mainGenerate_invalid host env input seq_type output_format ss ds nw sd he hm]
      exact ⟨rfl, rfl, Or.inr hm⟩

theorem c6_halt_before_effects_witness :
    (mainGenerate ⟨false, false⟩ ⟨.ok 0, fun _ => .ok ""⟩
        "AAUU" "rna" "pdb" 200 1 4 42).filesWritten = [] ∧
    (mainGenerate ⟨false, false⟩ ⟨.ok 0, fun _ => .ok ""⟩
        "AAUU" "rna" "pdb" 200 1 4 42).launches = [] ∧
    (("AAUU" : String) = "" ∨ make_fasta (pyUpper "AAUU") "rna" = none) :=
  c6_halt_before_effects ⟨false, false⟩ ⟨.ok 0, fun _ => .ok ""⟩
    "AAUU" "rna" "pdb" 200 1 4 42 (Or.inr (by decide))

/-- C7: every command list the workflow hands to the engine has exactly the
fixed shape — subcommand "predict", the input FASTA path positionally, then
the --out_dir, --accelerator, --sampling_steps, --diffusion_samples,
--output_format, --num_workers, --seed flag-value pairs in that order,
terminated by the --use_msa_server boolean flag. -/
theorem c7_command_shape (host : Host) (env : Env)
    (input seq_type output_format : String) (ss ds nw sd : Nat) (cmd : List String)
    (h : cmd ∈ (mainGenerate host env input seq_type output_format ss ds nw sd).launches) :
    ∃ fname, cmd =
      ["boltz", "predict", "./temp/" ++ fname ++ ".fasta"] ++
      ["--out_dir", "./temp"] ++
      ["--accelerator", (get_accelerator host).device] ++
      ["--sampling_steps", toString ss] ++
      ["--diffusion_samples", toString ds] ++
      ["--output_format", output_format] ++
      ["--num_workers", toString nw] ++
      ["--seed", toString sd] ++
      ["--use_msa_server"] := by
  by_cases he : pyUpper input = ""
  · rw [mainGenerate_empty host env input seq_type output_format ss ds nw sd he] at h
    simp at h
  · cases hm : make_fasta (pyUpper input) seq_type with
    | none =>
      rw [mainGenerate_invalid host env input seq_type output_format ss ds nw sd he hm] at h
      simp at h
    | some fasta =>
      rw [(mainGenerate_launched host env input seq_type output_format ss ds nw sd fasta he hm).1] at h
      simp at h
      exact ⟨fasta.fname, by rw [h]; rfl⟩

set_option maxRecDepth 1000000 in
theorem c7_command_shape_witness :
    boltzCommand (md5hex (utf8Encode "AUCG")) (get_accelerator ⟨false, false⟩).device
        200 1 "pdb" 4 42 ∈
      (mainGenerate ⟨false, false⟩ ⟨.ok 0, fun _ => .ok "model"⟩
        "AUCG" "rna" "pdb" 200 1 4 42).launches ∧
    ∃ fname, boltzCommand (md5hex (utf8Encode "AUCG")) (get_accelerator ⟨false, false⟩).device
        200 1 "pdb" 4 42 =
      ["boltz", "predict", "./temp/" ++ fname ++ ".fasta"] ++
      ["--out_dir", "./temp"] ++
      ["--accelerator", (get_accelerator ⟨false, false⟩).device] ++
      ["--sampling_steps", toString 200] ++
      ["--diffusion_samples", toString 1] ++
      ["--output_format", "pdb"] ++
      ["--num_workers", toString 4] ++
      ["--seed", toString 42] ++
      ["--use_msa_server"] :=
  ⟨by decide,
   c7_command_shape ⟨false, false⟩ ⟨.ok 0, fun _ => .ok "model"⟩
     "AUCG" "rna" "pdb" 200 1 4 42
     (boltzCommand (md5hex (utf8Encode "AUCG")) (get_accelerator ⟨false, false⟩).device
       200 1 "pdb" 4 42)
     (by decide)⟩

end Webui
